import Mathlib

/-!
Verification of the Allocation Ledger & Resource Locking Engine of the
monitoring_dashboard repository (`backend/services/ledger.py` and the
`complete_master_work_order` / `create_sdc_from_master` handlers of
`backend/routers/master_data.py`).

The MongoDB documents are modelled as Lean structures, and each service
function as a pure Lean function from the relevant collections to its
result (and updated collections).  Dates are the ISO `YYYY-MM-DD` strings
the source stores and compares; MongoDB compares them lexicographically by
code point, which `strLe` models.  Python truthiness of optional string
fields (`None` and `""` are falsy) is modelled by `pyTruthy`.
-/

/-- Python truthiness of an optional string value: `None` and the empty
string are falsy, every other string is truthy. -/
def pyTruthy : Option String → Bool
  | none => false
  | some s => !s.isEmpty

/-- Lexicographic comparison of char lists by code point. -/
def charListLe : List Char → List Char → Bool
  | [], _ => true
  | _ :: _, [] => false
  | a :: as, b :: bs =>
    if a.toNat < b.toNat then true
    else if b.toNat < a.toNat then false
    else charListLe as bs

/-- Lexicographic string comparison by code point, as MongoDB applies to the
ISO date strings stored in bookings (`$lte` / `$gte` on date strings). -/
def strLe (a b : String) : Bool := charListLe a.data b.data

/-! ## Data model: ledger side -/

/-- One job-role quota on a Master Work Order (`master_wo["job_roles"]`). -/
structure JobRoleQuota where
  job_role_id : String
  job_role_name : String
  target : Int
deriving DecidableEq

/-- A Master Work Order document (the fields the ledger reads). -/
structure MasterWO where
  master_wo_id : String
  job_roles : List JobRoleQuota
  total_training_target : Int
  is_deleted : Bool
deriving DecidableEq

/-- A child Work Order (batch) document (the fields the ledger reads). -/
structure WorkOrder where
  work_order_id : String
  master_wo_id : String
  job_role_id : String
  sdc_id : String
  num_students : Int
  status : String
  is_deleted : Bool
deriving DecidableEq

/-- A `target_ledger` allocation record, as written by `record_allocation`. -/
structure LedgerEntry where
  master_wo_id : String
  job_role_id : String
  sdc_id : String
  work_order_id : String
  allocated_students : Int
  status : String
  is_deleted : Bool
deriving DecidableEq

/-- Sum of `num_students` over all non-deleted work orders of the given
master work order and job role: the `allocated` sum of `get_target_ledger`
(the source queries `work_orders` by `master_wo_id` and `is_deleted` and
then filters by `job_role_id` inside the comprehension). -/
def allocatedFor (wos : List WorkOrder) (mwoId jrId : String) : Int :=
  ((wos.filter (fun w =>
      w.master_wo_id == mwoId && !w.is_deleted && w.job_role_id == jrId)).map
    (fun w => w.num_students)).sum

/-- Per-job-role row of the ledger returned by `get_target_ledger`. -/
structure JobRoleLedger where
  job_role_id : String
  job_role_name : String
  total_target : Int
  allocated : Int
  remaining : Int
  is_fully_allocated : Bool
deriving DecidableEq

/-- The per-job-role computation of `get_target_ledger`:
`remaining = max(0, total_target - allocated)` and
`is_fully_allocated = allocated >= total_target`. -/
def ledgerEntryFor (m : MasterWO) (wos : List WorkOrder) (q : JobRoleQuota) :
    JobRoleLedger :=
  let allocated := allocatedFor wos m.master_wo_id q.job_role_id
  { job_role_id := q.job_role_id
    job_role_name := q.job_role_name
    total_target := q.target
    allocated := allocated
    remaining := max 0 (q.target - allocated)
    is_fully_allocated := decide (allocated ≥ q.target) }

/-- `get_target_ledger`: `none` when the master work order is absent or
soft-deleted, otherwise the per-job-role rows in quota order. -/
def get_target_ledger (mwo : Option MasterWO) (wos : List WorkOrder) :
    Option (List JobRoleLedger) :=
  match mwo with
  | none => none
  | some m => if m.is_deleted then none else some (m.job_roles.map (ledgerEntryFor m wos))

/-- Result dictionary of `validate_allocation`, one constructor per return
site of the source. -/
inductive ValidationResult where
  | masterNotFound
  | jobRoleNotFound
  | overAlloc (remaining requested total_target currently_allocated : Int)
  | valid (remaining remaining_after requested : Int)
deriving DecidableEq

/-- The `is_valid` key of the result dictionary. -/
def ValidationResult.is_valid : ValidationResult → Bool
  | .valid _ _ _ => true
  | _ => false

/-- The `remaining` key of the result dictionary (0 on the not-found
returns, as in the source). -/
def ValidationResult.remaining : ValidationResult → Int
  | .masterNotFound => 0
  | .jobRoleNotFound => 0
  | .overAlloc r _ _ _ => r
  | .valid r _ _ => r

/-- `validate_allocation`: recomputes the ledger, finds the job role row,
optionally subtracts the allocation of `exclude_wo_id` (looked up in the
whole `work_orders` collection by id and job role), computes
`remaining = total_target - current_allocation` (note: not clamped at 0),
and rejects exactly when `requested_students > remaining`. -/
def validate_allocation (mwo : Option MasterWO) (wos : List WorkOrder)
    (jrId : String) (requested : Int) (excludeWoId : Option String) :
    ValidationResult :=
  match get_target_ledger mwo wos with
  | none => .masterNotFound
  | some ledger =>
    match ledger.find? (fun jr => jr.job_role_id == jrId) with
    | none => .jobRoleNotFound
    | some jrData =>
      let current_allocation :=
        if pyTruthy excludeWoId then
          match excludeWoId with
          | some ex =>
            match wos.find? (fun w => w.work_order_id == ex && w.job_role_id == jrId) with
            | some w => jrData.allocated - w.num_students
            | none => jrData.allocated
          | none => jrData.allocated
        else jrData.allocated
      let remaining := jrData.total_target - current_allocation
      if requested > remaining then
        .overAlloc remaining requested jrData.total_target current_allocation
      else
        .valid remaining (remaining - requested) requested

/-- `record_allocation`: appends an immutable `target_ledger` record with
`status = "active"` and `is_deleted = False`; it performs no validation. -/
def record_allocation (ledger : List LedgerEntry)
    (mwoId jrId sdcId woId : String) (numStudents : Int) : List LedgerEntry :=
  ledger ++ [{ master_wo_id := mwoId, job_role_id := jrId, sdc_id := sdcId,
               work_order_id := woId, allocated_students := numStudents,
               status := "active", is_deleted := false }]

/-- One allocation request handled by `create_sdc_from_master` (the
ledger-relevant arguments of the HTTP payload). -/
structure AllocRequest where
  job_role_id : String
  target_students : Int
  sdc_id : String
  work_order_id : String
deriving DecidableEq

/-- The ledger-relevant path of `create_sdc_from_master`: run
`validate_allocation` (with no exclusion); on failure raise (no writes); on
success insert the new work order with `num_students = target_students` and
append the `record_allocation` ledger entry.  Note the allocated sums that
`validate_allocation` reads come from the `work_orders` collection, not
from the `target_ledger` records. -/
def create_sdc_alloc_step (m : MasterWO)
    (s : List WorkOrder × List LedgerEntry) (req : AllocRequest) :
    List WorkOrder × List LedgerEntry :=
  if (validate_allocation (some m) s.1 req.job_role_id req.target_students none).is_valid then
    (s.1 ++ [{ work_order_id := req.work_order_id, master_wo_id := m.master_wo_id,
               job_role_id := req.job_role_id, sdc_id := req.sdc_id,
               num_students := req.target_students, status := "active",
               is_deleted := false }],
     record_allocation s.2 m.master_wo_id req.job_role_id req.sdc_id
       req.work_order_id req.target_students)
  else s

/-- A sequence of `create_sdc_from_master` allocation attempts; failed
validations leave the state unchanged, so the committed state is exactly
the one produced by the successful validate-then-record pairs. -/
def runAllocs (m : MasterWO) (s : List WorkOrder × List LedgerEntry)
    (reqs : List AllocRequest) : List WorkOrder × List LedgerEntry :=
  reqs.foldl (create_sdc_alloc_step m) s

/-- Target of the first quota with the given job-role id, the quota
`validate_allocation` measures against. -/
def targetOf (m : MasterWO) (jrId : String) : Option Int :=
  (m.job_roles.find? (fun q => q.job_role_id == jrId)).map (fun q => q.target)

/-- No over-allocation: for every quota that is the one found for its own
job-role id, the allocated sum is at most its target. -/
def noOverAlloc (m : MasterWO) (wos : List WorkOrder) : Prop :=
  ∀ q ∈ m.job_roles, targetOf m q.job_role_id = some q.target →
    allocatedFor wos m.master_wo_id q.job_role_id ≤ q.target

instance (m : MasterWO) (wos : List WorkOrder) : Decidable (noOverAlloc m wos) :=
  inferInstanceAs (Decidable (∀ q ∈ m.job_roles, _ → _))

/-! ## Data model: resource-locking side -/

/-- A resource document (trainer / center manager / infrastructure): the
fields read and written by the locking service. -/
structure Resource where
  status : String
  assigned_sdc_id : Option String
  assigned_work_order_id : Option String
deriving DecidableEq

/-- A `resource_bookings` document. -/
structure Booking where
  resource_type : String
  resource_id : String
  sdc_id : Option String
  work_order_id : Option String
  start_date : Option String
  end_date : Option String
  status : String
deriving DecidableEq

/-- Whether a resource type is one of the three known kinds
(`collection_map` membership in the source). -/
def knownResourceType (rtype : String) : Bool :=
  rtype == "trainer" || rtype == "manager" || rtype == "infrastructure"

/-- The `$or` date-overlap query `check_resource_availability` runs against
`resource_bookings`: an active booking of the same resource whose stored
interval satisfies one of the three clauses.  A booking with a missing
(`null`) date matches none of the clauses, as in MongoDB's type-bracketed
comparisons. -/
def bookingConflictsWith (rtype rid s e : String) (b : Booking) : Bool :=
  b.resource_type == rtype && b.resource_id == rid && b.status == "active" &&
  (match b.start_date, b.end_date with
   | some bs, some be =>
     (strLe bs s && strLe s be) || (strLe bs e && strLe e be) ||
     (strLe s bs && strLe be e)
   | _, _ => false)

/-- Result dictionary of `check_resource_availability`, one constructor per
return site of the source. -/
inductive AvailCheck where
  | unknownType
  | notFound
  | alreadyThisSdc
  | assignedConflict (sdc_id work_order_id : Option String)
  | bookingConflict (conflicts : List Booking)
  | ok (status : String)
deriving DecidableEq

/-- The `is_available` key of the result dictionary. -/
def AvailCheck.is_available : AvailCheck → Bool
  | .alreadyThisSdc => true
  | .ok _ => true
  | _ => false

/-- `check_resource_availability`: rejects unknown types and missing
resources; if the resource's status is `"assigned"` and one of its
assignment references is truthy, returns the assigned-conflict payload
(naming the holding SDC and work order) unless `exclude_sdc_id` is truthy
and equals the holder, in which case it returns available at once; only
otherwise, when both dates are supplied (and truthy), scans the booking log
with the three-clause overlap query. -/
def check_resource_availability (res : Option Resource) (bookings : List Booking)
    (rtype rid : String) (start_date end_date : Option String)
    (exclude_sdc_id : Option String) : AvailCheck :=
  if !knownResourceType rtype then .unknownType
  else
    match res with
    | none => .notFound
    | some r =>
      if r.status == "assigned" &&
          (pyTruthy r.assigned_sdc_id || pyTruthy r.assigned_work_order_id) then
        if pyTruthy exclude_sdc_id && r.assigned_sdc_id == exclude_sdc_id then
          .alreadyThisSdc
        else
          .assignedConflict r.assigned_sdc_id r.assigned_work_order_id
      else
        if pyTruthy start_date && pyTruthy end_date then
          match start_date, end_date with
          | some s, some e =>
            let conflicts := bookings.filter (bookingConflictsWith rtype rid s e)
            if !conflicts.isEmpty then .bookingConflict conflicts else .ok r.status
          | _, _ => .ok r.status
        else .ok r.status

/-- Result of `lock_resource`: success, or failure carrying the
availability dictionary (`{"success": False, **availability}`). -/
inductive LockResult where
  | ok (sdc_id : String)
  | failed (avail : AvailCheck)
deriving DecidableEq

/-- The `success` key of the `lock_resource` result. -/
def LockResult.success : LockResult → Bool
  | .ok _ => true
  | .failed _ => false

/-- The unconditional `$set` write of `lock_resource`: the `update_one`
filter is the resource id alone, with no condition on the current status;
`assigned_work_order_id` is set for trainers and infrastructure only. -/
def lock_write_phase (rtype : String) (r : Resource) (sdcId woId : String) :
    Resource :=
  { status := "assigned"
    assigned_sdc_id := some sdcId
    assigned_work_order_id :=
      if rtype == "trainer" || rtype == "infrastructure" then some woId
      else r.assigned_work_order_id }

/-- The availability re-check `lock_resource` performs first (no
`exclude_sdc_id` is passed). -/
def lock_check_phase (res : Option Resource) (bookings : List Booking)
    (rtype rid : String) (start_date end_date : Option String) : AvailCheck :=
  check_resource_availability res bookings rtype rid start_date end_date none

/-- `lock_resource`: runs the availability check; on failure returns the
availability payload and writes nothing; on success applies the
unconditional status write and appends an active booking record. -/
def lock_resource (rtype : String) (res : Option Resource)
    (bookings : List Booking) (rid sdcId woId : String)
    (start_date end_date : Option String) :
    Option Resource × List Booking × LockResult :=
  let avail := lock_check_phase res bookings rtype rid start_date end_date
  if !avail.is_available then (res, bookings, .failed avail)
  else
    match res with
    | none => (res, bookings, .failed avail)
    | some r =>
      (some (lock_write_phase rtype r sdcId woId),
       bookings ++ [{ resource_type := rtype, resource_id := rid,
                      sdc_id := some sdcId, work_order_id := some woId,
                      start_date := start_date, end_date := end_date,
                      status := "active" }],
       .ok sdcId)

/-- `release_resource`: for a known type, unconditionally resets the
resource to available with cleared references, and marks every active
booking of that resource id (the filter does not test the type) completed. -/
def release_resource (rtype : String) (res : Option Resource)
    (bookings : List Booking) (rid : String) :
    Option Resource × List Booking × Bool :=
  if !knownResourceType rtype then (res, bookings, false)
  else
    (res.map (fun r =>
        { r with status := "available", assigned_sdc_id := none,
                 assigned_work_order_id := none }),
     bookings.map (fun b =>
        if b.resource_id == rid && b.status == "active" then
          { b with status := "completed" }
        else b),
     true)

/-! ## Contract completion (`complete_master_work_order`) -/

/-- An SDC document (the fields the completion handler reads). -/
structure SDCRec where
  sdc_id : String
  master_wo_id : String
deriving DecidableEq

/-- The collections `complete_master_work_order` touches, for one master
work order (identified by `master_wo_id`) with status `master_status`. -/
structure WorldState where
  master_wo_id : String
  master_status : String
  sdcs : List SDCRec
  trainers : List Resource
  managers : List Resource
  infras : List Resource
  work_orders : List WorkOrder
deriving DecidableEq

/-- Effect on one trainer of the per-SDC `update_many` loop: released when
its `assigned_sdc_id` is one of the contract's SDCs and its status is
`"assigned"` (the loop runs one update per SDC; a trainer's single scalar
`assigned_sdc_id` matches at most one of them, so the loop's effect on each
document is this one conditional update). -/
def completeTrainerStep (sdcIds : List String) (r : Resource) : Resource :=
  if r.status == "assigned" &&
      (match r.assigned_sdc_id with
       | some s => sdcIds.contains s
       | none => false) then
    { r with status := "available", assigned_sdc_id := none,
             assigned_work_order_id := none }
  else r

/-- Effect on one center manager: as for trainers, except the `$set` does
not touch `assigned_work_order_id`. -/
def completeManagerStep (sdcIds : List String) (r : Resource) : Resource :=
  if r.status == "assigned" &&
      (match r.assigned_sdc_id with
       | some s => sdcIds.contains s
       | none => false) then
    { r with status := "available", assigned_sdc_id := none }
  else r

/-- Effect on one infrastructure resource: the `update_many` filter is
`assigned_work_order_id == master_wo_id` and `status == "in_use"`, and the
`$set` clears the status and the work-order reference but not
`assigned_sdc_id`. -/
def completeInfraStep (mwoId : String) (r : Resource) : Resource :=
  if r.status == "in_use" && r.assigned_work_order_id == some mwoId then
    { r with status := "available", assigned_work_order_id := none }
  else r

/-- `complete_master_work_order`: a 404 when the master work order is
absent and a no-op when it is already completed; otherwise releases
trainers and managers assigned to the contract's SDCs, releases
infrastructure matching `status == "in_use"`, marks the child work orders
and the master completed. -/
def complete_master_work_order (mwoId : String) (w : WorldState) : WorldState :=
  if w.master_wo_id != mwoId then w
  else if w.master_status == "completed" then w
  else
    let sdcIds := ((w.sdcs.filter (fun s => s.master_wo_id == mwoId)).map
      (fun s => s.sdc_id))
    { w with
      master_status := "completed"
      trainers := w.trainers.map (completeTrainerStep sdcIds)
      managers := w.managers.map (completeManagerStep sdcIds)
      infras := w.infras.map (completeInfraStep mwoId)
      work_orders := w.work_orders.map (fun wo =>
        if wo.master_wo_id == mwoId then { wo with status := "completed" }
        else wo) }

/-! ## Burn-down aggregation (`get_burndown_data`) -/

/-- Cumulative per-stage completion totals. -/
structure StageCounts where
  mobilization : Int
  training : Int
  ojt : Int
  assessment : Int
  placement : Int
deriving DecidableEq

/-- Sum of the per-stage `completed` counts over the SDC process records. -/
def sum_process_stages (ps : List StageCounts) : StageCounts :=
  ps.foldl (fun acc p =>
    { mobilization := acc.mobilization + p.mobilization
      training := acc.training + p.training
      ojt := acc.ojt + p.ojt
      assessment := acc.assessment + p.assessment
      placement := acc.placement + p.placement })
    ⟨0, 0, 0, 0, 0⟩

/-- A `training_roadmaps` record (the fields the aggregator reads). -/
structure Roadmap where
  stage_id : String
  completed_count : Int
deriving DecidableEq

/-- Backward-compatibility pass: each roadmap record raises the matching
stage total to at least its `completed_count`. -/
def applyRoadmap (s : StageCounts) (rm : Roadmap) : StageCounts :=
  if rm.stage_id == "mobilization" then
    { s with mobilization := max s.mobilization rm.completed_count }
  else if rm.stage_id == "classroom_training" then
    { s with training := max s.training rm.completed_count }
  else if rm.stage_id == "ojt" then
    { s with ojt := max s.ojt rm.completed_count }
  else if rm.stage_id == "assessment" then
    { s with assessment := max s.assessment rm.completed_count }
  else if rm.stage_id == "placement" then
    { s with placement := max s.placement rm.completed_count }
  else s

/-- The `pipeline` dictionary of one burn-down entry. -/
structure Pipeline where
  unallocated : Int
  allocated_not_started : Int
  mobilized : Int
  awaiting_training : Int
  in_training : Int
  in_ojt : Int
  awaiting_placement : Int
  placed : Int
deriving DecidableEq

/-- The pipeline derivation of `get_burndown_data`: clamped pairwise
subtraction of adjacent cumulative-stage totals. -/
def derive_pipeline (total_target total_allocated total_mobilized
    total_in_training total_ojt total_assessed total_placed : Int) : Pipeline :=
  { unallocated := max 0 (total_target - total_allocated)
    allocated_not_started := max 0 (total_allocated - total_mobilized)
    mobilized := total_mobilized
    awaiting_training := max 0 (total_mobilized - total_in_training)
    in_training := max 0 (total_in_training - total_ojt)
    in_ojt := max 0 (total_ojt - total_assessed)
    awaiting_placement := max 0 (total_assessed - total_placed)
    placed := total_placed }

/-- The `completion_percent` of the burn-down summary,
`placed / target * 100` when the target is positive and `0` otherwise.
The source rounds the floating-point result to one decimal for display;
the quotient is modelled exactly over the rationals. -/
def completion_percent (total_target total_placed : Int) : ℚ :=
  if total_target > 0 then (total_placed : ℚ) / (total_target : ℚ) * 100 else 0

/-- The per-master-work-order burn-down computation: total allocation from
the non-deleted work orders, stage totals from the process records raised
by the roadmap records, then the pipeline derivation and completion
percentage. -/
def get_burndown_entry (total_target : Int) (wos : List WorkOrder)
    (procs : List StageCounts) (roadmaps : List Roadmap) : Pipeline × ℚ :=
  let total_allocated :=
    ((wos.filter (fun w => !w.is_deleted)).map (fun w => w.num_students)).sum
  let s := roadmaps.foldl applyRoadmap (sum_process_stages procs)
  (derive_pipeline total_target total_allocated s.mobilization s.training
     s.ojt s.assessment s.placement,
   completion_percent total_target s.placement)

/-! ## Concurrency model for `lock_resource` -/

/-- One interleaving of two concurrent `lock_resource` calls on the same
resource: both availability checks (`find_one`) run before either status
write (`update_one`).  This schedule is possible because the source awaits
the check and the write as two separate database operations, and the write
filters on the resource id alone, with no condition on the current status. -/
def two_lock_interleaved (rtype : String) (r0 : Resource) (bookings : List Booking)
    (rid c1 c2 w1 w2 : String) : Bool × Bool × Resource :=
  let ok1 := (lock_check_phase (some r0) bookings rtype rid none none).is_available
  let ok2 := (lock_check_phase (some r0) bookings rtype rid none none).is_available
  let r1 := if ok1 then lock_write_phase rtype r0 c1 w1 else r0
  let r2 := if ok2 then lock_write_phase rtype r1 c2 w2 else r1
  (ok1, ok2, r2)

/-! ## Example documents used by concrete evaluations -/

/-- An active booking of trainer `t1` for January 2025. -/
def exBooking1 : Booking :=
  { resource_type := "trainer", resource_id := "t1", sdc_id := some "sdc_pune",
    work_order_id := some "wo_1", start_date := some "2025-01-01",
    end_date := some "2025-01-31", status := "active" }

/-- The infrastructure record produced by `lock_resource` inside
`create_sdc_from_master`, which passes `work_order_id = master_wo_id` for
the infrastructure lock: status `"assigned"` with both references set. -/
def exInfraLocked : Resource := ⟨"assigned", some "sdc_pune", some "mwo_1"⟩

/-- A contract world with one SDC and one engine-locked resource of each
kind under it. -/
def exWorld7 : WorldState :=
  { master_wo_id := "mwo_1", master_status := "active"
    sdcs := [⟨"sdc_pune", "mwo_1"⟩]
    trainers := [⟨"assigned", some "sdc_pune", some "wo_1"⟩]
    managers := [⟨"assigned", some "sdc_pune", none⟩]
    infras := [exInfraLocked]
    work_orders := [⟨"wo_1", "mwo_1", "jr1", "sdc_pune", 50, "active", false⟩] }

/-- Master work order with one job role of target 10, over-allocated by a
single 15-student batch. -/
def exMWO6 : MasterWO := ⟨"mwo_6", [⟨"jr1", "Sewing Machine Operator", 10⟩], 10, false⟩

/-- The single over-allocated batch against `exMWO6`. -/
def exWOs6 : List WorkOrder := [⟨"wo_6", "mwo_6", "jr1", "sdc_1", 15, "active", false⟩]

/-! ## Claim theorems -/

/-- C8: `get_burndown_data` derives `unallocated = max(0, target − allocated)`,
`allocated_not_started = max(0, allocated − mobilized)`,
`awaiting_training = max(0, mobilized − in_training)`, and every other
intermediate bucket by clamped pairwise subtraction of adjacent
cumulative-stage totals; every derived value is non-negative; the
completion percentage is `placed/target×100`, and `0` when the target is
not positive; and the target 100 / allocated 80 / mobilized 50 /
in-training 30 example yields `unallocated = 20`,
`allocated_not_started = 30`, `awaiting_training = 20`, with
`awaiting_training` clamped to 0 when `in_training > mobilized`. -/
theorem burndown_pipeline_properties (t a m itr oj ass pl : Int) :
    (derive_pipeline t a m itr oj ass pl).unallocated = max 0 (t - a) ∧
    (derive_pipeline t a m itr oj ass pl).allocated_not_started = max 0 (a - m) ∧
    (derive_pipeline t a m itr oj ass pl).awaiting_training = max 0 (m - itr) ∧
    (derive_pipeline t a m itr oj ass pl).in_training = max 0 (itr - oj) ∧
    (derive_pipeline t a m itr oj ass pl).in_ojt = max 0 (oj - ass) ∧
    (derive_pipeline t a m itr oj ass pl).awaiting_placement = max 0 (ass - pl) ∧
    0 ≤ (derive_pipeline t a m itr oj ass pl).unallocated ∧
    0 ≤ (derive_pipeline t a m itr oj ass pl).allocated_not_started ∧
    0 ≤ (derive_pipeline t a m itr oj ass pl).awaiting_training ∧
    0 ≤ (derive_pipeline t a m itr oj ass pl).in_training ∧
    0 ≤ (derive_pipeline t a m itr oj ass pl).in_ojt ∧
    0 ≤ (derive_pipeline t a m itr oj ass pl).awaiting_placement ∧
    completion_percent t pl = (if t > 0 then (pl : ℚ) / (t : ℚ) * 100 else 0) ∧
    completion_percent 0 pl = 0 ∧
    (get_burndown_entry 100 [⟨"wo_1", "mwo_1", "jr1", "sdc_1", 80, "active", false⟩]
        [⟨50, 30, 0, 0, 0⟩] []).1.unallocated = 20 ∧
    (get_burndown_entry 100 [⟨"wo_1", "mwo_1", "jr1", "sdc_1", 80, "active", false⟩]
        [⟨50, 30, 0, 0, 0⟩] []).1.allocated_not_started = 30 ∧
    (get_burndown_entry 100 [⟨"wo_1", "mwo_1", "jr1", "sdc_1", 80, "active", false⟩]
        [⟨50, 30, 0, 0, 0⟩] []).1.awaiting_training = 20 ∧
    (derive_pipeline 100 80 50 60 0 0 0).awaiting_training = 0 :=
  ⟨rfl, rfl, rfl, rfl, rfl, rfl,
   le_max_left 0 _, le_max_left 0 _, le_max_left 0 _,
   le_max_left 0 _, le_max_left 0 _, le_max_left 0 _,
   rfl, by simp [completion_percent], by decide, by decide, by decide, by decide⟩

/-- C3 counterexample: `check_resource_availability` on an existing trainer
whose status is `"on_leave"` — not `"available"` — reports it available,
because the source only gates on `status == "assigned"` with a truthy
assignment reference; the claim predicts `NotAvailable`. -/
theorem check_availability_on_leave_counterexample :
    (check_resource_availability (some ⟨"on_leave", none, none⟩) [] "trainer" "t1"
        none none none).is_available = true ∧
    ("on_leave" : String) ≠ "available" := by decide

/-- C6 counterexample: with a target of 10 and a single committed batch of
15 students, `validate_allocation` computes and returns
`remaining = 10 - 15 = -5`, not `max(0, 10 - 15) = 0` — the clamping the
claim asserts happens only in `get_target_ledger`, whose row for the same
job role reports remaining 0. -/
theorem validate_remaining_negative_counterexample :
    validate_allocation (some exMWO6) exWOs6 "jr1" 1 none =
      .overAlloc (-5) 1 10 15 ∧
    (validate_allocation (some exMWO6) exWOs6 "jr1" 1 none).remaining = -5 ∧
    (ledgerEntryFor exMWO6 exWOs6 ⟨"jr1", "Sewing Machine Operator", 10⟩).remaining = 0 ∧
    max 0 ((10 : Int) - 15) = 0 ∧ (-5 : Int) < 0 := by decide

/-- C7: completing a contract marks it completed and releases its trainers
and managers, but an infrastructure resource locked through
`lock_resource` (status `"assigned"`, `assigned_work_order_id` set to the
master work order id by `create_sdc_from_master`) is left untouched,
because the completion handler's release filter matches
`status == "in_use"` — the status written by the separate
`/infrastructure/assign` endpoint, never by `lock_resource`.  The contract
ends marked completed while the infrastructure remains locked. -/
theorem complete_leaves_infrastructure_locked :
    (lock_resource "infrastructure" (some ⟨"available", none, none⟩) []
        "infra_1" "sdc_pune" "mwo_1" none none).1 = some exInfraLocked ∧
    (complete_master_work_order "mwo_1" exWorld7).master_status = "completed" ∧
    (complete_master_work_order "mwo_1" exWorld7).trainers =
      [⟨"available", none, none⟩] ∧
    (complete_master_work_order "mwo_1" exWorld7).managers =
      [⟨"available", none, none⟩] ∧
    (complete_master_work_order "mwo_1" exWorld7).infras = [exInfraLocked] ∧
    exInfraLocked.status = "assigned" := by decide

/-- C9: the check and the write of `lock_resource` are two separate
database operations and the write is not conditioned on the status, so in
the interleaving where both availability checks precede both writes, two
concurrent `Lock` calls on the same available trainer both report success
and the trainer ends assigned to the second caller — not the
exactly-one-winner outcome a compare-and-swap would give.  The write phase
applied to an already-assigned resource still reassigns it, and only
sequential execution of the two calls produces the claimed conflict. -/
theorem lock_race_both_succeed :
    two_lock_interleaved "trainer" ⟨"available", none, none⟩ [] "t1" "C1" "C2"
        "w1" "w2" = (true, true, ⟨"assigned", some "C2", some "w2"⟩) ∧
    (lock_write_phase "trainer" ⟨"assigned", some "C1", some "w1"⟩ "C2" "w2").assigned_sdc_id
      = some "C2" ∧
    (lock_resource "trainer" (some ⟨"available", none, none⟩) [] "t1" "C1" "w1"
        none none).1 = some ⟨"assigned", some "C1", some "w1"⟩ ∧
    (lock_resource "trainer"
        (lock_resource "trainer" (some ⟨"available", none, none⟩) [] "t1" "C1" "w1" none none).1
        (lock_resource "trainer" (some ⟨"available", none, none⟩) [] "t1" "C1" "w1" none none).2.1
        "t1" "C2" "w2" none none).2.2.success = false := by decide

/-- C10: when the resource is assigned and `exclude_sdc_id` equals the
current holder, `check_resource_availability` returns available from the
exclusion branch at once, for every booking log and requested date range —
the date-overlap scan is skipped, so an overlapping active booking is not
reported. -/
theorem exclude_sdc_skips_booking_scan
    (r : Resource) (bookings : List Booking) (rtype rid : String)
    (sd ed excl : Option String)
    (htype : knownResourceType rtype = true)
    (hst : r.status = "assigned")
    (hsdc : pyTruthy r.assigned_sdc_id = true)
    (hexcl : excl = r.assigned_sdc_id) :
    check_resource_availability (some r) bookings rtype rid sd ed excl =
      AvailCheck.alreadyThisSdc ∧
    (AvailCheck.alreadyThisSdc).is_available = true := by
  refine ⟨?_, rfl⟩
  subst hexcl
  simp [check_resource_availability, htype, hst, hsdc]

/-- C10 witness: a trainer assigned to `sdc_pune`, re-checked by the same
SDC over a date range that overlaps one of its own active bookings, is
reported available. -/
theorem exclude_sdc_skips_booking_scan_witness :
    knownResourceType "trainer" = true ∧
    pyTruthy (some "sdc_pune") = true ∧
    bookingConflictsWith "trainer" "t1" "2025-01-15" "2025-02-15" exBooking1 = true ∧
    (check_resource_availability (some ⟨"assigned", some "sdc_pune", some "wo_1"⟩)
        [exBooking1] "trainer" "t1" (some "2025-01-15") (some "2025-02-15")
        (some "sdc_pune") = AvailCheck.alreadyThisSdc ∧
      (AvailCheck.alreadyThisSdc).is_available = true) :=
  ⟨by decide, by decide, by decide,
   exclude_sdc_skips_booking_scan ⟨"assigned", some "sdc_pune", some "wo_1"⟩
     [exBooking1] "trainer" "t1" (some "2025-01-15") (some "2025-02-15")
     (some "sdc_pune") (by decide) rfl (by decide) rfl⟩

/-- C3 (amended): with no date range, `check_resource_availability` on an
existing resource reports unavailability exactly when the status is
`"assigned"` AND one of the assignment references is truthy AND the
exclusion does not match the holder; any other status — including
`"on_leave"`, `"maintenance"` and `"in_use"` — is treated as available.
When it does report unavailability the result is the assigned-conflict
payload naming the holding SDC and work order. -/
theorem check_availability_status_gate
    (r : Resource) (bookings : List Booking) (rtype rid : String)
    (excl : Option String)
    (htype : knownResourceType rtype = true) :
    check_resource_availability (some r) bookings rtype rid none none excl =
      (if r.status == "assigned" &&
          (pyTruthy r.assigned_sdc_id || pyTruthy r.assigned_work_order_id) then
        if pyTruthy excl && r.assigned_sdc_id == excl then
          AvailCheck.alreadyThisSdc
        else AvailCheck.assignedConflict r.assigned_sdc_id r.assigned_work_order_id
      else AvailCheck.ok r.status) ∧
    ((check_resource_availability (some r) bookings rtype rid none none
        excl).is_available = false ↔
      (r.status = "assigned" ∧
        (pyTruthy r.assigned_sdc_id = true ∨ pyTruthy r.assigned_work_order_id = true) ∧
        ¬(pyTruthy excl = true ∧ r.assigned_sdc_id = excl))) := by
  have h1 : check_resource_availability (some r) bookings rtype rid none none excl =
      (if r.status == "assigned" &&
          (pyTruthy r.assigned_sdc_id || pyTruthy r.assigned_work_order_id) then
        if pyTruthy excl && r.assigned_sdc_id == excl then
          AvailCheck.alreadyThisSdc
        else AvailCheck.assignedConflict r.assigned_sdc_id r.assigned_work_order_id
      else AvailCheck.ok r.status) := by
    simp [check_resource_availability, htype, pyTruthy]
  refine ⟨h1, ?_⟩
  rw [h1]
  by_cases hA : (r.status == "assigned" &&
      (pyTruthy r.assigned_sdc_id || pyTruthy r.assigned_work_order_id)) = true
  · rw [if_pos hA]
    rw [Bool.and_eq_true, Bool.or_eq_true, beq_iff_eq] at hA
    by_cases hE : (pyTruthy excl && r.assigned_sdc_id == excl) = true
    · rw [if_pos hE]
      rw [Bool.and_eq_true, beq_iff_eq] at hE
      simp only [AvailCheck.is_available, Bool.true_eq_false, false_iff]
      rintro ⟨-, -, hn⟩
      exact hn hE
    · rw [if_neg hE]
      rw [Bool.and_eq_true, beq_iff_eq] at hE
      simp only [AvailCheck.is_available, true_iff]
      exact ⟨hA.1, hA.2, hE⟩
  · rw [if_neg hA]
    rw [Bool.and_eq_true, Bool.or_eq_true, beq_iff_eq] at hA
    simp only [AvailCheck.is_available, Bool.true_eq_false, false_iff]
    rintro ⟨hs, hr, -⟩
    exact hA ⟨hs, hr⟩

/-- C3 amended-claim witness: an assigned trainer with no exclusion is
reported unavailable, by the gate characterization instantiated at a
concrete resource. -/
theorem check_availability_status_gate_witness :
    knownResourceType "trainer" = true ∧
    ((check_resource_availability (some ⟨"assigned", some "sdc_pune", some "wo_1"⟩)
        [] "trainer" "t1" none none none).is_available = false ↔
      ("assigned" : String) = "assigned" ∧
        (pyTruthy (some "sdc_pune") = true ∨ pyTruthy (some "wo_1") = true) ∧
        ¬(pyTruthy (none : Option String) = true ∧
            (some "sdc_pune" : Option String) = none)) :=
  ⟨by decide,
   (check_availability_status_gate ⟨"assigned", some "sdc_pune", some "wo_1"⟩
     [] "trainer" "t1" none (by decide)).2⟩

/-- A booking that satisfies the overlap query names the scanned resource
and is active (the first three conjuncts of the query). -/
theorem conflictsWith_requires (rtype rid s e : String) (b : Booking)
    (h : bookingConflictsWith rtype rid s e b = true) :
    (b.resource_id == rid) = true ∧ (b.status == "active") = true := by
  unfold bookingConflictsWith at h
  simp only [Bool.and_eq_true] at h
  exact ⟨h.1.1.2, h.1.2⟩

/-- C5: with a date range supplied (and the assigned-status gate not
triggered), `check_resource_availability` reports a conflict exactly when
some booking in the log satisfies the three-way overlap query — active, on
the same resource, and overlapping by one of the three clauses; in
particular the active January 2025 booking conflicts with a
Jan 15 – Feb 15 request and not with a Feb 1 – Feb 28 request. -/
theorem check_availability_date_overlap
    (r : Resource) (bookings : List Booking) (rtype rid s e : String)
    (htype : knownResourceType rtype = true)
    (hgate : (r.status == "assigned" &&
      (pyTruthy r.assigned_sdc_id || pyTruthy r.assigned_work_order_id)) = false)
    (hs : s.isEmpty = false) (he : e.isEmpty = false) :
    ((check_resource_availability (some r) bookings rtype rid (some s) (some e)
        none).is_available = false ↔
      ∃ b ∈ bookings, bookingConflictsWith rtype rid s e b = true) ∧
    (check_resource_availability (some ⟨"available", none, none⟩) [exBooking1]
        "trainer" "t1" (some "2025-01-15") (some "2025-02-15")
        none).is_available = false ∧
    (check_resource_availability (some ⟨"available", none, none⟩) [exBooking1]
        "trainer" "t1" (some "2025-02-01") (some "2025-02-28")
        none).is_available = true := by
  refine ⟨?_, by decide, by decide⟩
  have h1 : check_resource_availability (some r) bookings rtype rid (some s)
      (some e) none =
      (if !(bookings.filter (bookingConflictsWith rtype rid s e)).isEmpty then
        AvailCheck.bookingConflict (bookings.filter (bookingConflictsWith rtype rid s e))
      else AvailCheck.ok r.status) := by
    unfold check_resource_availability
    rw [htype]
    simp only [Bool.not_true, Bool.false_eq_true, if_false]
    rw [hgate]
    simp only [Bool.false_eq_true, if_false, pyTruthy, hs, he, Bool.not_false,
      Bool.and_self, if_true]
  rw [h1]
  by_cases hc : (bookings.filter (bookingConflictsWith rtype rid s e)).isEmpty = true
  · rw [hc]
    simp only [Bool.not_true, Bool.false_eq_true, if_false, AvailCheck.is_available,
      Bool.true_eq_false, false_iff]
    rw [List.isEmpty_iff, List.filter_eq_nil_iff] at hc
    rintro ⟨b, hb, hpb⟩
    exact hc b hb hpb
  · rw [Bool.not_eq_true] at hc
    rw [hc]
    simp only [Bool.not_false, if_true, AvailCheck.is_available, true_iff]
    rw [Bool.eq_false_iff] at hc
    have hne : bookings.filter (bookingConflictsWith rtype rid s e) ≠ [] := by
      intro hnil
      exact hc (by rw [hnil]; rfl)
    obtain ⟨b, hb⟩ := List.exists_mem_of_ne_nil _ hne
    rw [List.mem_filter] at hb
    exact ⟨b, hb.1, hb.2⟩

/-- C5 witness: the overlap characterization instantiated at the claim's
own example — one active January 2025 booking of trainer `t1` scanned for
a Jan 15 – Feb 15 request. -/
theorem check_availability_date_overlap_witness :
    knownResourceType "trainer" = true ∧
    (("available" : String) == "assigned" &&
      (pyTruthy (none : Option String) || pyTruthy (none : Option String))) = false ∧
    String.isEmpty "2025-01-15" = false ∧
    String.isEmpty "2025-02-15" = false ∧
    ((check_resource_availability (some ⟨"available", none, none⟩) [exBooking1]
        "trainer" "t1" (some "2025-01-15") (some "2025-02-15")
        none).is_available = false ↔
      ∃ b ∈ [exBooking1],
        bookingConflictsWith "trainer" "t1" "2025-01-15" "2025-02-15" b = true) :=
  ⟨by decide, by decide, by decide, by decide,
   (check_availability_date_overlap ⟨"available", none, none⟩ [exBooking1]
     "trainer" "t1" "2025-01-15" "2025-02-15" (by decide) (by decide) (by decide)
     (by decide)).1⟩

/-- Finding a job role among the ledger rows is finding its quota, since
`ledgerEntryFor` preserves the job-role id. -/
theorem ledger_rows_find (m : MasterWO) (wos : List WorkOrder) (jrId : String) :
    (m.job_roles.map (ledgerEntryFor m wos)).find?
        (fun jr => jr.job_role_id == jrId) =
      (m.job_roles.find? (fun q => q.job_role_id == jrId)).map
        (ledgerEntryFor m wos) := by
  rw [List.find?_map]
  rfl

/-- C6 (amended): for a job role present on a non-deleted master work
order, the `get_target_ledger` row clamps `remaining` to
`max(0, target − allocated)`, which is never negative; but
`validate_allocation` (with no exclusion) computes and returns the
unclamped `remaining = target − allocated`, which is negative whenever the
committed allocation exceeds the target, and it fails exactly when the
requested count exceeds that unclamped remaining, returning it in the
over-allocation payload. -/
theorem validate_remaining_unclamped
    (m : MasterWO) (wos : List WorkOrder) (jrId : String) (q : JobRoleQuota)
    (n : Int)
    (hdel : m.is_deleted = false)
    (hfind : m.job_roles.find? (fun qq => qq.job_role_id == jrId) = some q) :
    (ledgerEntryFor m wos q).remaining =
      max 0 (q.target - allocatedFor wos m.master_wo_id q.job_role_id) ∧
    0 ≤ (ledgerEntryFor m wos q).remaining ∧
    (validate_allocation (some m) wos jrId n none).remaining =
      q.target - allocatedFor wos m.master_wo_id q.job_role_id ∧
    ((validate_allocation (some m) wos jrId n none).is_valid = false ↔
      n > q.target - allocatedFor wos m.master_wo_id q.job_role_id) ∧
    (n > q.target - allocatedFor wos m.master_wo_id q.job_role_id →
      validate_allocation (some m) wos jrId n none =
        .overAlloc (q.target - allocatedFor wos m.master_wo_id q.job_role_id) n
          q.target (allocatedFor wos m.master_wo_id q.job_role_id)) := by
  have hled : get_target_ledger (some m) wos =
      some (m.job_roles.map (ledgerEntryFor m wos)) := by
    simp [get_target_ledger, hdel]
  have hv : validate_allocation (some m) wos jrId n none =
      if n > q.target - allocatedFor wos m.master_wo_id q.job_role_id then
        ValidationResult.overAlloc
          (q.target - allocatedFor wos m.master_wo_id q.job_role_id) n q.target
          (allocatedFor wos m.master_wo_id q.job_role_id)
      else
        ValidationResult.valid
          (q.target - allocatedFor wos m.master_wo_id q.job_role_id)
          (q.target - allocatedFor wos m.master_wo_id q.job_role_id - n) n := by
    have hrows : (List.map (ledgerEntryFor m wos) m.job_roles).find?
        (fun jr => jr.job_role_id == jrId) = some (ledgerEntryFor m wos q) := by
      rw [ledger_rows_find, hfind]
      rfl
    unfold validate_allocation
    simp [hled, hrows, pyTruthy, ledgerEntryFor]
  refine ⟨rfl, le_max_left 0 _, ?_, ?_, ?_⟩
  · rw [hv]
    by_cases hn : n > q.target - allocatedFor wos m.master_wo_id q.job_role_id
    · rw [if_pos hn]; rfl
    · rw [if_neg hn]; rfl
  · rw [hv]
    by_cases hn : n > q.target - allocatedFor wos m.master_wo_id q.job_role_id
    · rw [if_pos hn]
      simp only [ValidationResult.is_valid, true_iff]
      exact hn
    · rw [if_neg hn]
      simp only [ValidationResult.is_valid, Bool.true_eq_false, false_iff]
      exact hn
  · intro hn
    rw [hv, if_pos hn]

/-- C6 amended-claim witness: at the over-allocated example (target 10,
allocated 15), `validate_allocation` returns the negative unclamped
remaining `10 − 15`. -/
theorem validate_remaining_unclamped_witness :
    exMWO6.is_deleted = false ∧
    exMWO6.job_roles.find? (fun qq => qq.job_role_id == "jr1") =
      some ⟨"jr1", "Sewing Machine Operator", 10⟩ ∧
    (validate_allocation (some exMWO6) exWOs6 "jr1" 1 none).remaining =
      10 - allocatedFor exWOs6 "mwo_6" "jr1" :=
  ⟨by decide, by decide,
   (validate_remaining_unclamped exMWO6 exWOs6 "jr1"
     ⟨"jr1", "Sewing Machine Operator", 10⟩ 1 (by decide) (by decide)).2.2.1⟩

/-- After `release_resource` marks every active booking of a resource id
completed, the overlap query on that resource finds nothing, whatever the
date range. -/
theorem release_filter_empty (bookings : List Booking) (rtype rid s e : String) :
    ((bookings.map (fun b =>
        if b.resource_id == rid && b.status == "active" then
          { b with status := "completed" }
        else b)).filter (bookingConflictsWith rtype rid s e)) = [] := by
  rw [List.filter_eq_nil_iff]
  intro b hb
  rw [List.mem_map] at hb
  obtain ⟨b0, _, rfl⟩ := hb
  by_cases h0 : (b0.resource_id == rid && b0.status == "active") = true
  · rw [if_pos h0]
    intro hconf
    have hreq : ((({ b0 with status := "completed" } : Booking).status == "active")) = true :=
      (conflictsWith_requires rtype rid s e _ hconf).2
    have : (("completed" : String) == "active") = true := hreq
    exact absurd this (by decide)
  · rw [if_neg h0]
    intro hconf
    have hreq := conflictsWith_requires rtype rid s e b0 hconf
    exact h0 (by rw [hreq.1, hreq.2]; rfl)

/-- C4: locking a resource already assigned to a different center fails —
it does not queue — returning the conflict payload that names the holding
center, and the failed call leaves both the resource document and the
booking log unchanged; after a `release_resource` of the same resource the
identical lock succeeds and the resource ends assigned to the new center. -/
theorem lock_conflict_release_relock
    (r : Resource) (bookings : List Booking) (rtype rid c1 c2 woId : String)
    (sd ed : Option String)
    (htype : knownResourceType rtype = true)
    (hst : r.status = "assigned")
    (hsdc : r.assigned_sdc_id = some c1)
    (hc1 : c1.isEmpty = false)
    (hne : c1 ≠ c2) :
    lock_resource rtype (some r) bookings rid c2 woId sd ed =
      (some r, bookings,
        .failed (.assignedConflict (some c1) r.assigned_work_order_id)) ∧
    (lock_resource rtype
        (release_resource rtype (some r) bookings rid).1
        (release_resource rtype (some r) bookings rid).2.1
        rid c2 woId sd ed).2.2 = .ok c2 ∧
    (lock_resource rtype
        (release_resource rtype (some r) bookings rid).1
        (release_resource rtype (some r) bookings rid).2.1
        rid c2 woId sd ed).1 =
      some { status := "assigned", assigned_sdc_id := some c2,
             assigned_work_order_id :=
               if rtype == "trainer" || rtype == "infrastructure" then some woId
               else none } := by
  have havail : lock_check_phase (some r) bookings rtype rid sd ed =
      .assignedConflict (some c1) r.assigned_work_order_id := by
    unfold lock_check_phase check_resource_availability
    rw [htype]
    simp only [Bool.not_true, Bool.false_eq_true, if_false]
    rw [hst, hsdc]
    simp [pyTruthy, hc1]
  have h1 : lock_resource rtype (some r) bookings rid c2 woId sd ed =
      (some r, bookings,
        .failed (.assignedConflict (some c1) r.assigned_work_order_id)) := by
    unfold lock_resource
    rw [havail]
    rfl
  have hrel1 : (release_resource rtype (some r) bookings rid).1 =
      some ⟨"available", none, none⟩ := by
    unfold release_resource
    rw [htype]
    rfl
  have hrel2 : (release_resource rtype (some r) bookings rid).2.1 =
      bookings.map (fun b =>
        if b.resource_id == rid && b.status == "active" then
          { b with status := "completed" }
        else b) := by
    unfold release_resource
    rw [htype]
    rfl
  have havail2 : lock_check_phase
      (some (⟨"available", none, none⟩ : Resource))
      (bookings.map (fun b =>
        if b.resource_id == rid && b.status == "active" then
          { b with status := "completed" }
        else b)) rtype rid sd ed = .ok "available" := by
    unfold lock_check_phase check_resource_availability
    rw [htype]
    simp only [Bool.not_true, Bool.false_eq_true, if_false]
    cases sd with
    | none => simp [pyTruthy]
    | some s =>
      cases ed with
      | none => simp [pyTruthy]
      | some e =>
        by_cases hs : s.isEmpty = true
        · simp [pyTruthy, hs]
        · by_cases he : e.isEmpty = true
          · simp [pyTruthy, he]
          · rw [Bool.not_eq_true] at hs he
            simp only [pyTruthy, hs, he, Bool.not_false, Bool.and_self, if_true]
            rw [release_filter_empty]
            rfl
  have h2 : lock_resource rtype
      (release_resource rtype (some r) bookings rid).1
      (release_resource rtype (some r) bookings rid).2.1
      rid c2 woId sd ed =
      (some { status := "assigned", assigned_sdc_id := some c2,
              assigned_work_order_id :=
                if rtype == "trainer" || rtype == "infrastructure" then some woId
                else none },
       (release_resource rtype (some r) bookings rid).2.1 ++
         [{ resource_type := rtype, resource_id := rid, sdc_id := some c2,
            work_order_id := some woId, start_date := sd, end_date := ed,
            status := "active" }],
       .ok c2) := by
    rw [hrel1, hrel2]
    unfold lock_resource
    rw [havail2]
    rfl
  exact ⟨h1, by rw [h2], by rw [h2]⟩

/-- C4 witness: trainer `t1` held by center `C1`; a lock for `C2` fails
naming `C1` and changes nothing; after release, the lock for `C2`
succeeds. -/
theorem lock_conflict_release_relock_witness :
    knownResourceType "trainer" = true ∧
    String.isEmpty "C1" = false ∧
    ("C1" : String) ≠ "C2" ∧
    (lock_resource "trainer" (some ⟨"assigned", some "C1", some "w1"⟩) [] "t1"
        "C2" "w2" none none =
      (some ⟨"assigned", some "C1", some "w1"⟩, [],
        .failed (.assignedConflict (some "C1") (some "w1"))) ∧
      (lock_resource "trainer"
          (release_resource "trainer" (some ⟨"assigned", some "C1", some "w1"⟩)
            [] "t1").1
          (release_resource "trainer" (some ⟨"assigned", some "C1", some "w1"⟩)
            [] "t1").2.1
          "t1" "C2" "w2" none none).2.2 = .ok "C2" ∧
      (lock_resource "trainer"
          (release_resource "trainer" (some ⟨"assigned", some "C1", some "w1"⟩)
            [] "t1").1
          (release_resource "trainer" (some ⟨"assigned", some "C1", some "w1"⟩)
            [] "t1").2.1
          "t1" "C2" "w2" none none).1 =
        some { status := "assigned", assigned_sdc_id := some "C2",
               assigned_work_order_id :=
                 if ("trainer" : String) == "trainer" ||
                     ("trainer" : String) == "infrastructure" then some "w2"
                 else none }) :=
  ⟨by decide, by decide, by decide,
   lock_conflict_release_relock ⟨"assigned", some "C1", some "w1"⟩ [] "trainer"
     "t1" "C1" "C2" "w2" none none (by decide) rfl rfl (by decide) (by decide)⟩

/-! ## Per-resource operation sequences for the assignment invariant -/

/-- The operations that touch one resource document: an engine lock, an
engine release, and a contract completion (which carries the contract id
and the ids of its SDCs). -/
inductive ResOp where
  | lockOp (sdcId woId : String) (sd ed : Option String)
  | releaseOp
  | completeOp (mwoId : String) (sdcIds : List String)
deriving DecidableEq

/-- Effect of one operation on one resource document of kind `rtype` with
id `rid`, together with the booking log; the completion applies the branch
of `complete_master_work_order` that targets the resource's collection. -/
def resOpStep (rtype rid : String) (s : Option Resource × List Booking) :
    ResOp → Option Resource × List Booking
  | .lockOp sdcId woId sd ed =>
    ((lock_resource rtype s.1 s.2 rid sdcId woId sd ed).1,
     (lock_resource rtype s.1 s.2 rid sdcId woId sd ed).2.1)
  | .releaseOp =>
    ((release_resource rtype s.1 s.2 rid).1,
     (release_resource rtype s.1 s.2 rid).2.1)
  | .completeOp mwoId sdcIds =>
    (s.1.map (fun r =>
        if rtype == "trainer" then completeTrainerStep sdcIds r
        else if rtype == "manager" then completeManagerStep sdcIds r
        else if rtype == "infrastructure" then completeInfraStep mwoId r
        else r),
     s.2)

/-- A sequence of lock / release / completion operations on one resource. -/
def runResOps (rtype rid : String) (s : Option Resource × List Booking)
    (ops : List ResOp) : Option Resource × List Booking :=
  ops.foldl (resOpStep rtype rid) s

/-- The consistency invariant of the claim: a resource's status is
`"assigned"` exactly when its `assigned_sdc_id` is non-null.  Since
`assigned_sdc_id` is a single scalar reference, a resource holds at most
one active assignment whenever it holds any. -/
def statusRefConsistent : Option Resource → Prop
  | none => True
  | some r => (r.status = "assigned" ↔ r.assigned_sdc_id ≠ none)

instance : (o : Option Resource) → Decidable (statusRefConsistent o)
  | none => .isTrue trivial
  | some r =>
    inferInstanceAs (Decidable (r.status = "assigned" ↔ r.assigned_sdc_id ≠ none))

/-- `completeTrainerStep` preserves the assignment invariant. -/
theorem completeTrainerStep_keeps (sdcIds : List String) (r : Resource)
    (h : r.status = "assigned" ↔ r.assigned_sdc_id ≠ none) :
    ((completeTrainerStep sdcIds r).status = "assigned" ↔
      (completeTrainerStep sdcIds r).assigned_sdc_id ≠ none) := by
  unfold completeTrainerStep
  split
  · exact ⟨fun hc => absurd hc (show ¬(("available" : String) = "assigned") by decide),
      fun hc => absurd rfl hc⟩
  · exact h

/-- `completeManagerStep` preserves the assignment invariant. -/
theorem completeManagerStep_keeps (sdcIds : List String) (r : Resource)
    (h : r.status = "assigned" ↔ r.assigned_sdc_id ≠ none) :
    ((completeManagerStep sdcIds r).status = "assigned" ↔
      (completeManagerStep sdcIds r).assigned_sdc_id ≠ none) := by
  unfold completeManagerStep
  split
  · exact ⟨fun hc => absurd hc (show ¬(("available" : String) = "assigned") by decide),
      fun hc => absurd rfl hc⟩
  · exact h

/-- `completeInfraStep` preserves the assignment invariant: its filter
matches only status `"in_use"`, and a consistent `"in_use"` resource has a
null `assigned_sdc_id`, which the step leaves null. -/
theorem completeInfraStep_keeps (mwoId : String) (r : Resource)
    (h : r.status = "assigned" ↔ r.assigned_sdc_id ≠ none) :
    ((completeInfraStep mwoId r).status = "assigned" ↔
      (completeInfraStep mwoId r).assigned_sdc_id ≠ none) := by
  unfold completeInfraStep
  split
  · next hcond =>
    rw [Bool.and_eq_true, beq_iff_eq] at hcond
    have hsdc : r.assigned_sdc_id = none := by
      by_contra hn
      have hassigned : r.status = "assigned" := h.mpr hn
      rw [hcond.1] at hassigned
      exact absurd hassigned (by decide)
    exact ⟨fun hc => absurd hc (show ¬(("available" : String) = "assigned") by decide),
      fun hn => absurd hsdc hn⟩
  · exact h

/-- A `lock_resource` call either leaves the resource document unchanged
(failed check, or missing document) or replaces it by the unconditional
write. -/
theorem lock_resource_fst_cases (rtype : String) (res : Option Resource)
    (bookings : List Booking) (rid sdcId woId : String)
    (sd ed : Option String) :
    (lock_resource rtype res bookings rid sdcId woId sd ed).1 = res ∨
    (lock_resource rtype res bookings rid sdcId woId sd ed).1 =
      res.map (fun r => lock_write_phase rtype r sdcId woId) := by
  simp only [lock_resource]
  by_cases h : (lock_check_phase res bookings rtype rid sd ed).is_available = true
  · rw [h]
    cases res with
    | none => left; rfl
    | some r => right; rfl
  · rw [Bool.not_eq_true] at h
    rw [h]
    left; rfl

/-- A `release_resource` call either leaves the resource document
unchanged (unknown type) or resets it to available with cleared
references. -/
theorem release_resource_fst_cases (rtype : String) (res : Option Resource)
    (bookings : List Booking) (rid : String) :
    (release_resource rtype res bookings rid).1 = res ∨
    (release_resource rtype res bookings rid).1 =
      res.map (fun r =>
        { r with status := "available", assigned_sdc_id := none,
                 assigned_work_order_id := none }) := by
  unfold release_resource
  by_cases h : knownResourceType rtype = true
  · rw [h]; right; rfl
  · rw [Bool.not_eq_true] at h
    rw [h]; left; rfl

/-- Every single operation preserves the assignment invariant. -/
theorem resOpStep_keeps (rtype rid : String)
    (s : Option Resource × List Booking) (op : ResOp)
    (h : statusRefConsistent s.1) :
    statusRefConsistent (resOpStep rtype rid s op).1 := by
  cases op with
  | lockOp sdcId woId sd ed =>
    simp only [resOpStep]
    rcases lock_resource_fst_cases rtype s.1 s.2 rid sdcId woId sd ed with
      hc | hc
    · rw [hc]; exact h
    · rw [hc]
      rcases hs1 : s.1 with _ | r
      · trivial
      · exact ⟨fun _ => Option.some_ne_none _, fun _ => rfl⟩
  | releaseOp =>
    simp only [resOpStep]
    rcases release_resource_fst_cases rtype s.1 s.2 rid with hc | hc
    · rw [hc]; exact h
    · rw [hc]
      rcases hs1 : s.1 with _ | r
      · trivial
      · exact ⟨fun hc' => absurd hc' (show ¬(("available" : String) = "assigned") by decide),
          fun hn => absurd rfl hn⟩
  | completeOp mwoId sdcIds =>
    simp only [resOpStep]
    rcases hs1 : s.1 with _ | r
    · trivial
    · rw [hs1] at h
      by_cases ht : (rtype == "trainer") = true
    
      · rw [ht]
        simp only [if_true]
        exact completeTrainerStep_keeps sdcIds r h
      · rw [Bool.not_eq_true] at ht
        rw [ht]
        by_cases hm : (rtype == "manager") = true
        · rw [hm]
          simp only [Bool.false_eq_true, if_false, if_true]
          exact completeManagerStep_keeps sdcIds r h
        · rw [Bool.not_eq_true] at hm
          rw [hm]
          by_cases hi : (rtype == "infrastructure") = true
          · rw [hi]
            simp only [Bool.false_eq_true, if_false, if_true]
            exact completeInfraStep_keeps mwoId r h
          · rw [Bool.not_eq_true] at hi
            rw [hi]
            simp only [Bool.false_eq_true, if_false]
            exact h

/-- C2: the invariant `status = "assigned" ⇔ assigned_sdc_id ≠ null` holds
after any sequence of lock, release, and contract-completion operations
starting from a consistent state; the single scalar `assigned_sdc_id`
reference means the resource never holds more than one active assignment. -/
theorem status_assignment_invariant (rtype rid : String)
    (s : Option Resource × List Booking) (ops : List ResOp)
    (h : statusRefConsistent s.1) :
    statusRefConsistent (runResOps rtype rid s ops).1 := by
  induction ops generalizing s with
  | nil => exact h
  | cons op ops ih => exact ih (resOpStep rtype rid s op) (resOpStep_keeps rtype rid s op h)

/-- C2 witness: an available trainer run through lock, completion, a
second lock, and a release stays consistent. -/
theorem status_assignment_invariant_witness :
    statusRefConsistent (some ⟨"available", none, none⟩) ∧
    statusRefConsistent
      (runResOps "trainer" "t1" (some ⟨"available", none, none⟩, [])
        [.lockOp "C1" "w1" none none, .completeOp "m1" ["C1"],
         .lockOp "C2" "w2" none none, .releaseOp]).1 :=
  ⟨by decide,
   status_assignment_invariant "trainer" "t1" (some ⟨"available", none, none⟩, [])
     [.lockOp "C1" "w1" none none, .completeOp "m1" ["C1"],
      .lockOp "C2" "w2" none none, .releaseOp] (by decide)⟩

/-- Appending one work order adds its student count to the allocated sum
of exactly its own (master, job role) pair. -/
theorem allocatedFor_append (wos : List WorkOrder) (w : WorkOrder)
    (mid jrId : String) :
    allocatedFor (wos ++ [w]) mid jrId =
      allocatedFor wos mid jrId +
        (if w.master_wo_id == mid && !w.is_deleted && w.job_role_id == jrId then
          w.num_students else 0) := by
  unfold allocatedFor
  rw [List.filter_append, List.map_append, List.sum_append]
  by_cases h : (w.master_wo_id == mid && !w.is_deleted && w.job_role_id == jrId) = true
  · rw [if_pos h]
    congr 1
    simp [h]
  · rw [if_neg h]
    simp [h]

/-- For a job role found on a non-deleted master work order,
`validate_allocation` with no exclusion reduces to the unclamped remaining
comparison. -/
theorem validate_allocation_eq_if (m : MasterWO) (wos : List WorkOrder)
    (jrId : String) (q : JobRoleQuota) (n : Int)
    (hdel : m.is_deleted = false)
    (hfind : m.job_roles.find? (fun qq => qq.job_role_id == jrId) = some q) :
    validate_allocation (some m) wos jrId n none =
      if n > q.target - allocatedFor wos m.master_wo_id q.job_role_id then
        ValidationResult.overAlloc
          (q.target - allocatedFor wos m.master_wo_id q.job_role_id) n q.target
          (allocatedFor wos m.master_wo_id q.job_role_id)
      else
        ValidationResult.valid
          (q.target - allocatedFor wos m.master_wo_id q.job_role_id)
          (q.target - allocatedFor wos m.master_wo_id q.job_role_id - n) n := by
  have hled : get_target_ledger (some m) wos =
      some (m.job_roles.map (ledgerEntryFor m wos)) := by
    simp [get_target_ledger, hdel]
  have hrows : (List.map (ledgerEntryFor m wos) m.job_roles).find?
      (fun jr => jr.job_role_id == jrId) = some (ledgerEntryFor m wos q) := by
    rw [ledger_rows_find, hfind]
    rfl
  unfold validate_allocation
  simp [hled, hrows, pyTruthy, ledgerEntryFor]

/-- A successful validation names a quota found for the requested job role
and bounds the post-insert allocation by its target. -/
theorem validate_valid_bound (m : MasterWO) (wos : List WorkOrder)
    (jrId : String) (n : Int)
    (h : (validate_allocation (some m) wos jrId n none).is_valid = true) :
    ∃ q, m.job_roles.find? (fun qq => qq.job_role_id == jrId) = some q ∧
      q.job_role_id = jrId ∧
      allocatedFor wos m.master_wo_id jrId + n ≤ q.target := by
  by_cases hdel : m.is_deleted = true
  · exfalso
    have h1 : get_target_ledger (some m) wos = none := by
      show (if m.is_deleted = true then none
        else some (m.job_roles.map (ledgerEntryFor m wos))) = none
      rw [if_pos hdel]
    have h2 : validate_allocation (some m) wos jrId n none = .masterNotFound := by
      unfold validate_allocation
      rw [h1]
    rw [h2] at h
    exact absurd h (by decide)
  · rw [Bool.not_eq_true] at hdel
    cases hfind : m.job_roles.find? (fun qq => qq.job_role_id == jrId) with
    | none =>
      exfalso
      have h1 : get_target_ledger (some m) wos =
          some (m.job_roles.map (ledgerEntryFor m wos)) := by
        simp [get_target_ledger, hdel]
      have hrows : (List.map (ledgerEntryFor m wos) m.job_roles).find?
          (fun jr => jr.job_role_id == jrId) = none := by
        rw [ledger_rows_find, hfind]
        rfl
      have h2 : validate_allocation (some m) wos jrId n none = .jobRoleNotFound := by
        unfold validate_allocation
        simp only [h1, hrows]
      rw [h2] at h
      exact absurd h (by decide)
    | some q =>
      have hq : q.job_role_id = jrId := by simpa using List.find?_some hfind
      refine ⟨q, rfl, hq, ?_⟩
      rw [validate_allocation_eq_if m wos jrId q n hdel hfind] at h
      by_cases hn : n > q.target - allocatedFor wos m.master_wo_id q.job_role_id
      · rw [if_pos hn] at h
        exact absurd h (show ¬((false : Bool) = true) by decide)
      · rw [not_lt] at hn
        rw [← hq]
        omega

/-- One `create_sdc_from_master` allocation attempt preserves the
no-over-allocation invariant: a failed validation writes nothing, and a
successful one adds at most the remaining capacity of its job role. -/
theorem create_sdc_alloc_step_keeps (m : MasterWO)
    (s : List WorkOrder × List LedgerEntry) (req : AllocRequest)
    (h : noOverAlloc m s.1) :
    noOverAlloc m (create_sdc_alloc_step m s req).1 := by
  unfold create_sdc_alloc_step
  by_cases hv : (validate_allocation (some m) s.1 req.job_role_id
      req.target_students none).is_valid = true
  · rw [if_pos hv]
    intro q hq hT
    dsimp only
    rw [allocatedFor_append]
    by_cases hjr : (req.job_role_id == q.job_role_id) = true
    · have hqr : req.job_role_id = q.job_role_id := by simpa using hjr
      obtain ⟨q', hfind', hq'eq, hbound⟩ :=
        validate_valid_bound m s.1 req.job_role_id req.target_students hv
      have htg : q'.target = q.target := by
        unfold targetOf at hT
        rw [← hqr, hfind'] at hT
        simpa using hT
      rw [if_pos (by simp [hjr])]
      rw [← hqr, ← htg]
      exact hbound
    · rw [if_neg (by simp [hjr])]
      rw [add_zero]
      exact h q hq hT
  · rw [if_neg hv]
    exact h

/-- C1: starting from a state with no over-allocation, any sequence of
`create_sdc_from_master` allocation attempts — each a successful
`validate_allocation` followed by the work-order insert and
`record_allocation`, with failed validations writing nothing — keeps the
sum of allocated students of every job role at or below its target:
over-allocation is never observable in the committed state. -/
theorem no_over_allocation_invariant (m : MasterWO)
    (s : List WorkOrder × List LedgerEntry) (reqs : List AllocRequest)
    (h : noOverAlloc m s.1) :
    noOverAlloc m (runAllocs m s reqs).1 := by
  induction reqs generalizing s with
  | nil => exact h
  | cons req reqs ih =>
    exact ih (create_sdc_alloc_step m s req) (create_sdc_alloc_step_keeps m s req h)

/-- A one-role contract with target 50, for the C1 witness. -/
def exMWO1 : MasterWO := ⟨"mwo_1", [⟨"jr1", "Fitter", 50⟩], 50, false⟩

/-- C1 witness: two 30-student requests against a target of 50 — the
second validation fails and writes nothing, leaving 30 allocated. -/
theorem no_over_allocation_invariant_witness :
    noOverAlloc exMWO1 (([], []) : List WorkOrder × List LedgerEntry).1 ∧
    noOverAlloc exMWO1
      (runAllocs exMWO1 (([], []) : List WorkOrder × List LedgerEntry)
        [⟨"jr1", 30, "sdc_a", "wo_a"⟩, ⟨"jr1", 30, "sdc_b", "wo_b"⟩]).1 ∧
    allocatedFor
      (runAllocs exMWO1 (([], []) : List WorkOrder × List LedgerEntry)
        [⟨"jr1", 30, "sdc_a", "wo_a"⟩, ⟨"jr1", 30, "sdc_b", "wo_b"⟩]).1
      "mwo_1" "jr1" = 30 :=
  ⟨by decide,
   no_over_allocation_invariant exMWO1 (([], []) : List WorkOrder × List LedgerEntry)
     [⟨"jr1", 30, "sdc_a", "wo_a"⟩, ⟨"jr1", 30, "sdc_b", "wo_b"⟩] (by decide),
   by decide⟩
